import Mathlib

/-!
Verification of the utility module of `pefile-go` (`util.go`, package `pefile`).

The module provides four primitive families over byte buffers:
* `GetEntropy` — Shannon entropy of a byte buffer (256-bucket histogram,
  `-Σ p·log2 p` over nonzero buckets);
* `GetMD5Hash` / `GetSHA1Hash` / `GetSHA256Hash` — lowercase-hex digests via
  `calcHash`;
* `GetFuzzyHash` — adapter around the external ssdeep capability, wrapping
  failures with `errors.Wrap(err, "fail to calc fuzzy hash")`;
* `isValidFuncName` / `isValidDosFilename` — anchored character-class regex
  validators matched against the UTF-8 decoding of the token, as Go's regexp
  engine does.

A byte is modelled as `Fin 256` where the Go type is `byte`, or as `Nat`
(with values `< 256` in all uses) where byte-level UTF-8 structure matters.
Floating-point arithmetic in `GetEntropy` is modelled over `ℝ` (idealized
real arithmetic); the claims checked about it hold exactly in this model.
-/

namespace Pefile

/-- `GetEntropy` from `util.go`: returns 0 for an empty buffer; otherwise
builds the 256-bucket occurrence histogram (`occurences[b]` is the number of
positions holding byte `b`, i.e. `data.count b`) and accumulates
`- px * log2 px` over the buckets with a positive count. -/
noncomputable def GetEntropy (data : List (Fin 256)) : ℝ :=
  if data.length = 0 then 0
  else
    ∑ b : Fin 256,
      if 0 < data.count b then
        -((data.count b : ℝ) / (data.length : ℝ)) *
          Real.logb 2 ((data.count b : ℝ) / (data.length : ℝ))
      else 0

/-- 32-bit modular addition. -/
def add32 (a b : Nat) : Nat := (a + b) % 4294967296

/-- 32-bit complement (for arguments below `2^32`). -/
def not32 (x : Nat) : Nat := 4294967295 ^^^ x

/-- 32-bit left rotation (for `x < 2^32`, `0 < n < 32`). -/
def rotl32 (x n : Nat) : Nat := ((x <<< n) % 4294967296) ||| (x >>> (32 - n))

/-- 32-bit right rotation (for `x < 2^32`, `0 < n < 32`). -/
def rotr32 (x n : Nat) : Nat := (x >>> n) ||| ((x <<< (32 - n)) % 4294967296)

/-- Little-endian 32-bit word `i` of a 64-byte block. -/
def leWord (blk : List Nat) (i : Nat) : Nat :=
  blk.getD (4 * i) 0 + 256 * blk.getD (4 * i + 1) 0 + 65536 * blk.getD (4 * i + 2) 0 +
    16777216 * blk.getD (4 * i + 3) 0

/-- Big-endian 32-bit word `i` of a 64-byte block. -/
def beWord (blk : List Nat) (i : Nat) : Nat :=
  16777216 * blk.getD (4 * i) 0 + 65536 * blk.getD (4 * i + 1) 0 + 256 * blk.getD (4 * i + 2) 0 +
    blk.getD (4 * i + 3) 0

/-- `n` bytes of `x`, least significant first. -/
def toLEBytes : Nat → Nat → List Nat
  | 0, _ => []
  | n + 1, x => x % 256 :: toLEBytes n (x / 256)

/-- `n` bytes of `x`, most significant first. -/
def toBEBytes (n x : Nat) : List Nat := (toLEBytes n x).reverse

/-- Number of zero bytes inserted by Merkle–Damgård padding so that
`len + 1 + zeros ≡ 56 (mod 64)`. -/
def padZeros (len : Nat) : Nat := (119 - len % 64) % 64

/-- MD5 padding: `0x80`, zeros, then the 64-bit bit length little-endian. -/
def mdPad (msg : List Nat) : List Nat :=
  msg ++ 0x80 :: (List.replicate (padZeros msg.length) 0 ++ toLEBytes 8 (8 * msg.length))

/-- SHA-1/SHA-256 padding: `0x80`, zeros, then the 64-bit bit length big-endian. -/
def shaPad (msg : List Nat) : List Nat :=
  msg ++ 0x80 :: (List.replicate (padZeros msg.length) 0 ++ toBEBytes 8 (8 * msg.length))

/-- Split a byte list into 64-byte blocks; the fuel argument (instantiated with
the list length, an upper bound on the number of blocks) keeps the recursion
structural. -/
def toBlocksAux : Nat → List Nat → List (List Nat)
  | 0, _ => []
  | _ + 1, [] => []
  | fuel + 1, l => l.take 64 :: toBlocksAux fuel (l.drop 64)

/-- Split a padded message into 64-byte blocks. -/
def toBlocks (l : List Nat) : List (List Nat) := toBlocksAux l.length l

/-- The 64 MD5 sine-derived round constants (RFC 1321). -/
def md5K : List Nat := [
  3614090360, 3905402710, 606105819, 3250441966, 4118548399, 1200080426,
  2821735955, 4249261313, 1770035416, 2336552879, 4294925233, 2304563134,
  1804603682, 4254626195, 2792965006, 1236535329, 4129170786, 3225465664,
  643717713, 3921069994, 3593408605, 38016083, 3634488961, 3889429448,
  568446438, 3275163606, 4107603335, 1163531501, 2850285829, 4243563512,
  1735328473, 2368359562, 4294588738, 2272392833, 1839030562, 4259657740,
  2763975236, 1272893353, 4139469664, 3200236656, 681279174, 3936430074,
  3572445317, 76029189, 3654602809, 3873151461, 530742520, 3299628645,
  4096336452, 1126891415, 2878612391, 4237533241, 1700485571, 2399980690,
  4293915773, 2240044497, 1873313359, 4264355552, 2734768916, 1309151649,
  4149444226, 3174756917, 718787259, 3951481745]

/-- The 64 MD5 per-round left-rotation amounts. -/
def md5S : List Nat := [
  7, 12, 17, 22, 7, 12, 17, 22, 7, 12, 17, 22, 7, 12, 17, 22,
  5, 9, 14, 20, 5, 9, 14, 20, 5, 9, 14, 20, 5, 9, 14, 20,
  4, 11, 16, 23, 4, 11, 16, 23, 4, 11, 16, 23, 4, 11, 16, 23,
  6, 10, 15, 21, 6, 10, 15, 21, 6, 10, 15, 21, 6, 10, 15, 21]

/-- One MD5 round on state `(a, b, c, d)` with message words `X`. -/
def md5Round (X : Nat → Nat) (st : Nat × Nat × Nat × Nat) (i : Nat) : Nat × Nat × Nat × Nat :=
  let (a, b, c, d) := st
  let f :=
    if i < 16 then (b &&& c) ||| (not32 b &&& d)
    else if i < 32 then (d &&& b) ||| (not32 d &&& c)
    else if i < 48 then b ^^^ c ^^^ d
    else c ^^^ (b ||| not32 d)
  let g :=
    if i < 16 then i
    else if i < 32 then (5 * i + 1) % 16
    else if i < 48 then (3 * i + 5) % 16
    else (7 * i) % 16
  let t := rotl32 ((a + f + md5K.getD i 0 + X g) % 4294967296) (md5S.getD i 0)
  (d, add32 b t, b, c)

/-- MD5 compression of one 64-byte block. -/
def md5Compress (st : Nat × Nat × Nat × Nat) (blk : List Nat) : Nat × Nat × Nat × Nat :=
  let r := (List.range 64).foldl (md5Round (leWord blk)) st
  (add32 st.1 r.1, add32 st.2.1 r.2.1, add32 st.2.2.1 r.2.2.1, add32 st.2.2.2 r.2.2.2)

/-- MD5 initial chaining value. -/
def md5Init : Nat × Nat × Nat × Nat :=
  (1732584193, 4023233417, 2562383102, 271733878)

/-- MD5 digest bytes of a message. -/
def md5Bytes (msg : List Nat) : List Nat :=
  let st := (toBlocks (mdPad msg)).foldl md5Compress md5Init
  toLEBytes 4 st.1 ++ toLEBytes 4 st.2.1 ++ toLEBytes 4 st.2.2.1 ++ toLEBytes 4 st.2.2.2

/-- SHA-1 initial chaining value. -/
def sha1Init : Nat × Nat × Nat × Nat × Nat :=
  (1732584193, 4023233417, 2562383102, 271733878, 3285377520)

/-- SHA-1 80-word message schedule of a 64-byte block. -/
def sha1Schedule (blk : List Nat) : List Nat :=
  (List.range 64).foldl
    (fun w _ =>
      let n := w.length
      w ++ [rotl32 (w.getD (n - 3) 0 ^^^ w.getD (n - 8) 0 ^^^ w.getD (n - 14) 0 ^^^
        w.getD (n - 16) 0) 1])
    ((List.range 16).map (beWord blk))

/-- One SHA-1 round on state `(a, b, c, d, e)` with schedule `W`. -/
def sha1Round (W : Nat → Nat) (st : Nat × Nat × Nat × Nat × Nat) (i : Nat) :
    Nat × Nat × Nat × Nat × Nat :=
  let (a, b, c, d, e) := st
  let f :=
    if i < 20 then (b &&& c) ||| (not32 b &&& d)
    else if i < 40 then b ^^^ c ^^^ d
    else if i < 60 then (b &&& c) ||| (b &&& d) ||| (c &&& d)
    else b ^^^ c ^^^ d
  let k :=
    if i < 20 then 1518500249
    else if i < 40 then 1859775393
    else if i < 60 then 2400959708
    else 3395469782
  let t := (rotl32 a 5 + f + e + k + W i) % 4294967296
  (t, a, rotl32 b 30, c, d)

/-- SHA-1 compression of one 64-byte block. -/
def sha1Compress (st : Nat × Nat × Nat × Nat × Nat) (blk : List Nat) :
    Nat × Nat × Nat × Nat × Nat :=
  let sched := sha1Schedule blk
  let r := (List.range 80).foldl (sha1Round fun i => sched.getD i 0) st
  (add32 st.1 r.1, add32 st.2.1 r.2.1, add32 st.2.2.1 r.2.2.1, add32 st.2.2.2.1 r.2.2.2.1,
    add32 st.2.2.2.2 r.2.2.2.2)

/-- SHA-1 digest bytes of a message. -/
def sha1Bytes (msg : List Nat) : List Nat :=
  let st := (toBlocks (shaPad msg)).foldl sha1Compress sha1Init
  toBEBytes 4 st.1 ++ toBEBytes 4 st.2.1 ++ toBEBytes 4 st.2.2.1 ++ toBEBytes 4 st.2.2.2.1 ++
    toBEBytes 4 st.2.2.2.2

/-- The 64 SHA-256 round constants. -/
def sha256K : List Nat := [
  1116352408, 1899447441, 3049323471, 3921009573, 961987163, 1508970993,
  2453635748, 2870763221, 3624381080, 310598401, 607225278, 1426881987,
  1925078388, 2162078206, 2614888103, 3248222580, 3835390401, 4022224774,
  264347078, 604807628, 770255983, 1249150122, 1555081692, 1996064986,
  2554220882, 2821834349, 2952996808, 3210313671, 3336571891, 3584528711,
  113926993, 338241895, 666307205, 773529912, 1294757372, 1396182291,
  1695183700, 1986661051, 2177026350, 2456956037, 2730485921, 2820302411,
  3259730800, 3345764771, 3516065817, 3600352804, 4094571909, 275423344,
  430227734, 506948616, 659060556, 883997877, 958139571, 1322822218,
  1537002063, 1747873779, 1955562222, 2024104815, 2227730452, 2361852424,
  2428436474, 2756734187, 3204031479, 3329325298]

/-- SHA-256 initial chaining value. -/
def sha256Init : Nat × Nat × Nat × Nat × Nat × Nat × Nat × Nat :=
  (1779033703, 3144134277, 1013904242, 2773480762,
    1359893119, 2600822924, 528734635, 1541459225)

/-- SHA-256 64-word message schedule of a 64-byte block. -/
def sha256Schedule (blk : List Nat) : List Nat :=
  (List.range 48).foldl
    (fun w _ =>
      let n := w.length
      let w15 := w.getD (n - 15) 0
      let w2 := w.getD (n - 2) 0
      let s0 := rotr32 w15 7 ^^^ rotr32 w15 18 ^^^ (w15 >>> 3)
      let s1 := rotr32 w2 17 ^^^ rotr32 w2 19 ^^^ (w2 >>> 10)
      w ++ [(w.getD (n - 16) 0 + s0 + w.getD (n - 7) 0 + s1) % 4294967296])
    ((List.range 16).map (beWord blk))

/-- One SHA-256 round on state `(a, b, c, d, e, f, g, h)` with schedule `W`. -/
def sha256Round (W : Nat → Nat) (st : Nat × Nat × Nat × Nat × Nat × Nat × Nat × Nat) (i : Nat) :
    Nat × Nat × Nat × Nat × Nat × Nat × Nat × Nat :=
  let (a, b, c, d, e, f, g, h) := st
  let bigS1 := rotr32 e 6 ^^^ rotr32 e 11 ^^^ rotr32 e 25
  let ch := (e &&& f) ^^^ (not32 e &&& g)
  let t1 := (h + bigS1 + ch + sha256K.getD i 0 + W i) % 4294967296
  let bigS0 := rotr32 a 2 ^^^ rotr32 a 13 ^^^ rotr32 a 22
  let maj := (a &&& b) ^^^ (a &&& c) ^^^ (b &&& c)
  let t2 := (bigS0 + maj) % 4294967296
  (add32 t1 t2, a, b, c, add32 d t1, e, f, g)

/-- SHA-256 compression of one 64-byte block. -/
def sha256Compress (st : Nat × Nat × Nat × Nat × Nat × Nat × Nat × Nat) (blk : List Nat) :
    Nat × Nat × Nat × Nat × Nat × Nat × Nat × Nat :=
  let sched := sha256Schedule blk
  let r := (List.range 64).foldl (sha256Round fun i => sched.getD i 0) st
  (add32 st.1 r.1, add32 st.2.1 r.2.1, add32 st.2.2.1 r.2.2.1, add32 st.2.2.2.1 r.2.2.2.1,
    add32 st.2.2.2.2.1 r.2.2.2.2.1, add32 st.2.2.2.2.2.1 r.2.2.2.2.2.1,
    add32 st.2.2.2.2.2.2.1 r.2.2.2.2.2.2.1, add32 st.2.2.2.2.2.2.2 r.2.2.2.2.2.2.2)

/-- SHA-256 digest bytes of a message. -/
def sha256Bytes (msg : List Nat) : List Nat :=
  let st := (toBlocks (shaPad msg)).foldl sha256Compress sha256Init
  toBEBytes 4 st.1 ++ toBEBytes 4 st.2.1 ++ toBEBytes 4 st.2.2.1 ++ toBEBytes 4 st.2.2.2.1 ++
    toBEBytes 4 st.2.2.2.2.1 ++ toBEBytes 4 st.2.2.2.2.2.1 ++ toBEBytes 4 st.2.2.2.2.2.2.1 ++
    toBEBytes 4 st.2.2.2.2.2.2.2

/-- Lowercase hex digit, as Go's `encoding/hex` table. -/
def hexDigit (n : Nat) : Char := "0123456789abcdef".data.getD n '0'

/-- Hex characters of a byte list: high nibble then low nibble of each byte,
as `hex.EncodeToString` produces. -/
def hexChars : List Nat → List Char
  | [] => []
  | b :: rest => hexDigit (b / 16) :: hexDigit (b % 16) :: hexChars rest

/-- `hex.EncodeToString` over a byte list. -/
def hexEncodeToString (bytes : List Nat) : String := String.mk (hexChars bytes)

/-- `GetMD5Hash` from `util.go`: `calcHash(md5.New(), data)`. -/
def GetMD5Hash (data : List Nat) : String := hexEncodeToString (md5Bytes data)

/-- `GetSHA1Hash` from `util.go`: `calcHash(sha1.New(), data)`. -/
def GetSHA1Hash (data : List Nat) : String := hexEncodeToString (sha1Bytes data)

/-- `GetSHA256Hash` from `util.go`: `calcHash(sha256.New(), data)`. -/
def GetSHA256Hash (data : List Nat) : String := hexEncodeToString (sha256Bytes data)

/-! ### Name validators: `isValidFuncName` and `isValidDosFilename`

`util.go` compiles two anchored character-class patterns and applies
`regexp.Match` to the raw byte slice. Go's regexp engine decodes the bytes as
UTF-8 (each malformed byte yields the replacement character U+FFFD) and the
anchored pattern accepts exactly the non-empty sequences of runes that all lie
in the class. The classes are the Unicode letter categories (Lu Ll Lt Lm Lo),
the Unicode number categories (Nd Nl No), plus per-validator punctuation. -/

def letterRanges : List (Nat × Nat) := [
  (65, 90), (97, 122), (170, 170), (181, 181), (186, 186), (192, 214), (216, 246), (248, 705),
  (710, 721), (736, 740), (748, 748), (750, 750), (880, 884), (886, 887), (890, 893), (895, 895),
  (902, 902), (904, 906), (908, 908), (910, 929), (931, 1013), (1015, 1153), (1162, 1327), (1329, 1366),
  (1369, 1369), (1376, 1416), (1488, 1514), (1519, 1522), (1568, 1610), (1646, 1647), (1649, 1747), (1749, 1749),
  (1765, 1766), (1774, 1775), (1786, 1788), (1791, 1791), (1808, 1808), (1810, 1839), (1869, 1957), (1969, 1969),
  (1994, 2026), (2036, 2037), (2042, 2042), (2048, 2069), (2074, 2074), (2084, 2084), (2088, 2088), (2112, 2136),
  (2144, 2154), (2160, 2183), (2185, 2190), (2208, 2249), (2308, 2361), (2365, 2365), (2384, 2384), (2392, 2401),
  (2417, 2432), (2437, 2444), (2447, 2448), (2451, 2472), (2474, 2480), (2482, 2482), (2486, 2489), (2493, 2493),
  (2510, 2510), (2524, 2525), (2527, 2529), (2544, 2545), (2556, 2556), (2565, 2570), (2575, 2576), (2579, 2600),
  (2602, 2608), (2610, 2611), (2613, 2614), (2616, 2617), (2649, 2652), (2654, 2654), (2674, 2676), (2693, 2701),
  (2703, 2705), (2707, 2728), (2730, 2736), (2738, 2739), (2741, 2745), (2749, 2749), (2768, 2768), (2784, 2785),
  (2809, 2809), (2821, 2828), (2831, 2832), (2835, 2856), (2858, 2864), (2866, 2867), (2869, 2873), (2877, 2877),
  (2908, 2909), (2911, 2913), (2929, 2929), (2947, 2947), (2949, 2954), (2958, 2960), (2962, 2965), (2969, 2970),
  (2972, 2972), (2974, 2975), (2979, 2980), (2984, 2986), (2990, 3001), (3024, 3024), (3077, 3084), (3086, 3088),
  (3090, 3112), (3114, 3129), (3133, 3133), (3160, 3162), (3165, 3165), (3168, 3169), (3200, 3200), (3205, 3212),
  (3214, 3216), (3218, 3240), (3242, 3251), (3253, 3257), (3261, 3261), (3293, 3294), (3296, 3297), (3313, 3314),
  (3332, 3340), (3342, 3344), (3346, 3386), (3389, 3389), (3406, 3406), (3412, 3414), (3423, 3425), (3450, 3455),
  (3461, 3478), (3482, 3505), (3507, 3515), (3517, 3517), (3520, 3526), (3585, 3632), (3634, 3635), (3648, 3654),
  (3713, 3714), (3716, 3716), (3718, 3722), (3724, 3747), (3749, 3749), (3751, 3760), (3762, 3763), (3773, 3773),
  (3776, 3780), (3782, 3782), (3804, 3807), (3840, 3840), (3904, 3911), (3913, 3948), (3976, 3980), (4096, 4138),
  (4159, 4159), (4176, 4181), (4186, 4189), (4193, 4193), (4197, 4198), (4206, 4208), (4213, 4225), (4238, 4238),
  (4256, 4293), (4295, 4295), (4301, 4301), (4304, 4346), (4348, 4680), (4682, 4685), (4688, 4694), (4696, 4696),
  (4698, 4701), (4704, 4744), (4746, 4749), (4752, 4784), (4786, 4789), (4792, 4798), (4800, 4800), (4802, 4805),
  (4808, 4822), (4824, 4880), (4882, 4885), (4888, 4954), (4992, 5007), (5024, 5109), (5112, 5117), (5121, 5740),
  (5743, 5759), (5761, 5786), (5792, 5866), (5873, 5880), (5888, 5905), (5919, 5937), (5952, 5969), (5984, 5996),
  (5998, 6000), (6016, 6067), (6103, 6103), (6108, 6108), (6176, 6264), (6272, 6276), (6279, 6312), (6314, 6314),
  (6320, 6389), (6400, 6430), (6480, 6509), (6512, 6516), (6528, 6571), (6576, 6601), (6656, 6678), (6688, 6740),
  (6823, 6823), (6917, 6963), (6981, 6988), (7043, 7072), (7086, 7087), (7098, 7141), (7168, 7203), (7245, 7247),
  (7258, 7293), (7296, 7304), (7312, 7354), (7357, 7359), (7401, 7404), (7406, 7411), (7413, 7414), (7418, 7418),
  (7424, 7615), (7680, 7957), (7960, 7965), (7968, 8005), (8008, 8013), (8016, 8023), (8025, 8025), (8027, 8027),
  (8029, 8029), (8031, 8061), (8064, 8116), (8118, 8124), (8126, 8126), (8130, 8132), (8134, 8140), (8144, 8147),
  (8150, 8155), (8160, 8172), (8178, 8180), (8182, 8188), (8305, 8305), (8319, 8319), (8336, 8348), (8450, 8450),
  (8455, 8455), (8458, 8467), (8469, 8469), (8473, 8477), (8484, 8484), (8486, 8486), (8488, 8488), (8490, 8493),
  (8495, 8505), (8508, 8511), (8517, 8521), (8526, 8526), (8579, 8580), (11264, 11492), (11499, 11502), (11506, 11507),
  (11520, 11557), (11559, 11559), (11565, 11565), (11568, 11623), (11631, 11631), (11648, 11670), (11680, 11686), (11688, 11694),
  (11696, 11702), (11704, 11710), (11712, 11718), (11720, 11726), (11728, 11734), (11736, 11742), (11823, 11823), (12293, 12294),
  (12337, 12341), (12347, 12348), (12353, 12438), (12445, 12447), (12449, 12538), (12540, 12543), (12549, 12591), (12593, 12686),
  (12704, 12735), (12784, 12799), (13312, 19903), (19968, 42124), (42192, 42237), (42240, 42508), (42512, 42527), (42538, 42539),
  (42560, 42606), (42623, 42653), (42656, 42725), (42775, 42783), (42786, 42888), (42891, 42954), (42960, 42961), (42963, 42963),
  (42965, 42969), (42994, 43009), (43011, 43013), (43015, 43018), (43020, 43042), (43072, 43123), (43138, 43187), (43250, 43255),
  (43259, 43259), (43261, 43262), (43274, 43301), (43312, 43334), (43360, 43388), (43396, 43442), (43471, 43471), (43488, 43492),
  (43494, 43503), (43514, 43518), (43520, 43560), (43584, 43586), (43588, 43595), (43616, 43638), (43642, 43642), (43646, 43695),
  (43697, 43697), (43701, 43702), (43705, 43709), (43712, 43712), (43714, 43714), (43739, 43741), (43744, 43754), (43762, 43764),
  (43777, 43782), (43785, 43790), (43793, 43798), (43808, 43814), (43816, 43822), (43824, 43866), (43868, 43881), (43888, 44002),
  (44032, 55203), (55216, 55238), (55243, 55291), (63744, 64109), (64112, 64217), (64256, 64262), (64275, 64279), (64285, 64285),
  (64287, 64296), (64298, 64310), (64312, 64316), (64318, 64318), (64320, 64321), (64323, 64324), (64326, 64433), (64467, 64829),
  (64848, 64911), (64914, 64967), (65008, 65019), (65136, 65140), (65142, 65276), (65313, 65338), (65345, 65370), (65382, 65470),
  (65474, 65479), (65482, 65487), (65490, 65495), (65498, 65500), (65536, 65547), (65549, 65574), (65576, 65594), (65596, 65597),
  (65599, 65613), (65616, 65629), (65664, 65786), (66176, 66204), (66208, 66256), (66304, 66335), (66349, 66368), (66370, 66377),
  (66384, 66421), (66432, 66461), (66464, 66499), (66504, 66511), (66560, 66717), (66736, 66771), (66776, 66811), (66816, 66855),
  (66864, 66915), (66928, 66938), (66940, 66954), (66956, 66962), (66964, 66965), (66967, 66977), (66979, 66993), (66995, 67001),
  (67003, 67004), (67072, 67382), (67392, 67413), (67424, 67431), (67456, 67461), (67463, 67504), (67506, 67514), (67584, 67589),
  (67592, 67592), (67594, 67637), (67639, 67640), (67644, 67644), (67647, 67669), (67680, 67702), (67712, 67742), (67808, 67826),
  (67828, 67829), (67840, 67861), (67872, 67897), (67968, 68023), (68030, 68031), (68096, 68096), (68112, 68115), (68117, 68119),
  (68121, 68149), (68192, 68220), (68224, 68252), (68288, 68295), (68297, 68324), (68352, 68405), (68416, 68437), (68448, 68466),
  (68480, 68497), (68608, 68680), (68736, 68786), (68800, 68850), (68864, 68899), (69248, 69289), (69296, 69297), (69376, 69404),
  (69415, 69415), (69424, 69445), (69488, 69505), (69552, 69572), (69600, 69622), (69635, 69687), (69745, 69746), (69749, 69749),
  (69763, 69807), (69840, 69864), (69891, 69926), (69956, 69956), (69959, 69959), (69968, 70002), (70006, 70006), (70019, 70066),
  (70081, 70084), (70106, 70106), (70108, 70108), (70144, 70161), (70163, 70187), (70272, 70278), (70280, 70280), (70282, 70285),
  (70287, 70301), (70303, 70312), (70320, 70366), (70405, 70412), (70415, 70416), (70419, 70440), (70442, 70448), (70450, 70451),
  (70453, 70457), (70461, 70461), (70480, 70480), (70493, 70497), (70656, 70708), (70727, 70730), (70751, 70753), (70784, 70831),
  (70852, 70853), (70855, 70855), (71040, 71086), (71128, 71131), (71168, 71215), (71236, 71236), (71296, 71338), (71352, 71352),
  (71424, 71450), (71488, 71494), (71680, 71723), (71840, 71903), (71935, 71942), (71945, 71945), (71948, 71955), (71957, 71958),
  (71960, 71983), (71999, 71999), (72001, 72001), (72096, 72103), (72106, 72144), (72161, 72161), (72163, 72163), (72192, 72192),
  (72203, 72242), (72250, 72250), (72272, 72272), (72284, 72329), (72349, 72349), (72368, 72440), (72704, 72712), (72714, 72750),
  (72768, 72768), (72818, 72847), (72960, 72966), (72968, 72969), (72971, 73008), (73030, 73030), (73056, 73061), (73063, 73064),
  (73066, 73097), (73112, 73112), (73440, 73458), (73648, 73648), (73728, 74649), (74880, 75075), (77712, 77808), (77824, 78894),
  (82944, 83526), (92160, 92728), (92736, 92766), (92784, 92862), (92880, 92909), (92928, 92975), (92992, 92995), (93027, 93047),
  (93053, 93071), (93760, 93823), (93952, 94026), (94032, 94032), (94099, 94111), (94176, 94177), (94179, 94179), (94208, 100343),
  (100352, 101589), (101632, 101640), (110576, 110579), (110581, 110587), (110589, 110590), (110592, 110882), (110928, 110930), (110948, 110951),
  (110960, 111355), (113664, 113770), (113776, 113788), (113792, 113800), (113808, 113817), (119808, 119892), (119894, 119964), (119966, 119967),
  (119970, 119970), (119973, 119974), (119977, 119980), (119982, 119993), (119995, 119995), (119997, 120003), (120005, 120069), (120071, 120074),
  (120077, 120084), (120086, 120092), (120094, 120121), (120123, 120126), (120128, 120132), (120134, 120134), (120138, 120144), (120146, 120485),
  (120488, 120512), (120514, 120538), (120540, 120570), (120572, 120596), (120598, 120628), (120630, 120654), (120656, 120686), (120688, 120712),
  (120714, 120744), (120746, 120770), (120772, 120779), (122624, 122654), (123136, 123180), (123191, 123197), (123214, 123214), (123536, 123565),
  (123584, 123627), (124896, 124902), (124904, 124907), (124909, 124910), (124912, 124926), (124928, 125124), (125184, 125251), (125259, 125259),
  (126464, 126467), (126469, 126495), (126497, 126498), (126500, 126500), (126503, 126503), (126505, 126514), (126516, 126519), (126521, 126521),
  (126523, 126523), (126530, 126530), (126535, 126535), (126537, 126537), (126539, 126539), (126541, 126543), (126545, 126546), (126548, 126548),
  (126551, 126551), (126553, 126553), (126555, 126555), (126557, 126557), (126559, 126559), (126561, 126562), (126564, 126564), (126567, 126570),
  (126572, 126578), (126580, 126583), (126585, 126588), (126590, 126590), (126592, 126601), (126603, 126619), (126625, 126627), (126629, 126633),
  (126635, 126651), (131072, 173791), (173824, 177976), (177984, 178205), (178208, 183969), (183984, 191456), (194560, 195101), (196608, 201546)]

def numberRanges : List (Nat × Nat) := [
  (48, 57), (178, 179), (185, 185), (188, 190), (1632, 1641), (1776, 1785), (1984, 1993), (2406, 2415),
  (2534, 2543), (2548, 2553), (2662, 2671), (2790, 2799), (2918, 2927), (2930, 2935), (3046, 3058), (3174, 3183),
  (3192, 3198), (3302, 3311), (3416, 3422), (3430, 3448), (3558, 3567), (3664, 3673), (3792, 3801), (3872, 3891),
  (4160, 4169), (4240, 4249), (4969, 4988), (5870, 5872), (6112, 6121), (6128, 6137), (6160, 6169), (6470, 6479),
  (6608, 6618), (6784, 6793), (6800, 6809), (6992, 7001), (7088, 7097), (7232, 7241), (7248, 7257), (8304, 8304),
  (8308, 8313), (8320, 8329), (8528, 8578), (8581, 8585), (9312, 9371), (9450, 9471), (10102, 10131), (11517, 11517),
  (12295, 12295), (12321, 12329), (12344, 12346), (12690, 12693), (12832, 12841), (12872, 12879), (12881, 12895), (12928, 12937),
  (12977, 12991), (42528, 42537), (42726, 42735), (43056, 43061), (43216, 43225), (43264, 43273), (43472, 43481), (43504, 43513),
  (43600, 43609), (44016, 44025), (65296, 65305), (65799, 65843), (65856, 65912), (65930, 65931), (66273, 66299), (66336, 66339),
  (66369, 66369), (66378, 66378), (66513, 66517), (66720, 66729), (67672, 67679), (67705, 67711), (67751, 67759), (67835, 67839),
  (67862, 67867), (68028, 68029), (68032, 68047), (68050, 68095), (68160, 68168), (68221, 68222), (68253, 68255), (68331, 68335),
  (68440, 68447), (68472, 68479), (68521, 68527), (68858, 68863), (68912, 68921), (69216, 69246), (69405, 69414), (69457, 69460),
  (69573, 69579), (69714, 69743), (69872, 69881), (69942, 69951), (70096, 70105), (70113, 70132), (70384, 70393), (70736, 70745),
  (70864, 70873), (71248, 71257), (71360, 71369), (71472, 71483), (71904, 71922), (72016, 72025), (72784, 72812), (73040, 73049),
  (73120, 73129), (73664, 73684), (74752, 74862), (92768, 92777), (92864, 92873), (93008, 93017), (93019, 93025), (93824, 93846),
  (119520, 119539), (119648, 119672), (120782, 120831), (123200, 123209), (123632, 123641), (125127, 125135), (125264, 125273), (126065, 126123),
  (126125, 126127), (126129, 126132), (126209, 126253), (126255, 126269), (127232, 127244), (130032, 130041)]

/-- Membership of a code point in a list of inclusive ranges. -/
def inRanges (rs : List (Nat × Nat)) (n : Nat) : Bool :=
  rs.any fun p => decide (p.1 <= n) && decide (n <= p.2)

/-- The Unicode letter property (regex class `\pL`). -/
def isUnicodeLetter (r : Nat) : Bool := inRanges letterRanges r

/-- The Unicode number property (regex class `\pN`). -/
def isUnicodeNumber (r : Nat) : Bool := inRanges numberRanges r

/-- Punctuation admitted by `validFuncName`: underscore, question mark,
at sign, dollar, parentheses. -/
def funcNamePunct : List Nat := [95, 63, 64, 36, 40, 41]

/-- Punctuation admitted by `validDosName`: exclamation mark, slash, dollar,
percent, ampersand, apostrophe, parentheses, backquote, hyphen, at sign,
caret, underscore, curly brackets, tilde, plus, comma, period, semicolon,
equals, square brackets. -/
def dosNamePunct : List Nat :=
  [33, 47, 36, 37, 38, 39, 40, 41, 96, 45, 64, 94, 95, 123, 125, 126, 43, 44, 46, 59, 61, 91, 93]

/-- A rune accepted by the class of `validFuncName`. -/
def funcNameChar (r : Nat) : Bool :=
  isUnicodeLetter r || isUnicodeNumber r || funcNamePunct.contains r

/-- A rune accepted by the class of `validDosName`. -/
def dosNameChar (r : Nat) : Bool :=
  isUnicodeLetter r || isUnicodeNumber r || dosNamePunct.contains r

/-- UTF-8 continuation byte (0x80 to 0xBF inclusive). -/
def isCont (b : Nat) : Bool := decide (128 <= b) && decide (b <= 191)

def decodeRune2 (b0 : Nat) : List Nat -> Option (Nat × Nat)
  | b1 :: _ => if isCont b1 = true then some ((b0 - 192) * 64 + (b1 - 128), 2) else none
  | [] => none

/-- Three-byte continuation step of `decodeRune` (second byte range depends on
the first byte, rejecting surrogates and overlong forms as Go does). -/
def decodeRune3 (b0 : Nat) : List Nat -> Option (Nat × Nat)
  | b1 :: b2 :: _ =>
    if (if b0 = 224 then 160 else 128) <= b1 ∧ b1 <= (if b0 = 237 then 159 else 191) ∧
        isCont b2 = true then
      some ((b0 - 224) * 4096 + (b1 - 128) * 64 + (b2 - 128), 3)
    else none
  | _ => none

/-- Four-byte continuation step of `decodeRune` (second byte range depends on
the first byte, keeping the code point at most U+10FFFF as Go does). -/
def decodeRune4 (b0 : Nat) : List Nat -> Option (Nat × Nat)
  | b1 :: b2 :: b3 :: _ =>
    if (if b0 = 240 then 144 else 128) <= b1 ∧ b1 <= (if b0 = 244 then 143 else 191) ∧
        isCont b2 = true ∧ isCont b3 = true then
      some ((b0 - 240) * 262144 + (b1 - 128) * 4096 + (b2 - 128) * 64 + (b3 - 128), 4)
    else none
  | _ => none

/-- One step of Go's `utf8.DecodeRune` over a byte list: `some (rune, size)`
for a well-formed encoding at the front (rejecting surrogates and overlong
forms, exactly Go's accept-range table), `none` for a malformed front
(which Go reports as `(RuneError, 1)`). -/
def decodeRune : List Nat -> Option (Nat × Nat)
  | [] => none
  | b0 :: rest =>
    if b0 < 128 then some (b0, 1)
    else if b0 < 194 ∨ 244 < b0 then none
    else if b0 <= 223 then decodeRune2 b0 rest
    else if b0 <= 239 then decodeRune3 b0 rest
    else decodeRune4 b0 rest

/-- Decode a byte list to its rune list exactly as Go's regexp engine steps
through it: a malformed position yields the replacement rune 0xFFFD and
consumes one byte. The second component records whether any malformed
position was met. The fuel argument (instantiated with the list length, an
upper bound on the number of runes) keeps the recursion structural. -/
def utf8DecodeAux : Nat -> List Nat -> List Nat × Bool
  | 0, _ => ([], false)
  | _ + 1, [] => ([], false)
  | fuel + 1, b0 :: rest =>
    match decodeRune (b0 :: rest) with
    | some (r, n) =>
      let res := utf8DecodeAux fuel ((b0 :: rest).drop n)
      (r :: res.1, res.2)
    | none =>
      let res := utf8DecodeAux fuel rest
      (65533 :: res.1, true)

/-- The rune sequence of a byte list under Go's UTF-8 decoding. -/
def utf8Decode (l : List Nat) : List Nat := (utf8DecodeAux l.length l).1

/-- Whether a byte list is entirely well-formed UTF-8. -/
def utf8WellFormed (l : List Nat) : Bool := !(utf8DecodeAux l.length l).2

/-- `isValidFuncName` from `util.go`:
`regexp.MustCompile of an anchored class of letters, numbers and symbol
punctuation, matched ("Match") against the byte slice`. The anchored
one-or-more pattern accepts exactly the byte lists whose rune sequence is
non-empty and lies entirely in the class. -/
def isValidFuncName (name : List Nat) : Bool :=
  !(utf8Decode name).isEmpty && (utf8Decode name).all funcNameChar

/-- `isValidDosFilename` from `util.go`: the same anchored-class match with
the DOS filename punctuation set. -/
def isValidDosFilename (name : List Nat) : Bool :=
  !(utf8Decode name).isEmpty && (utf8Decode name).all dosNameChar

/-- Byte list of an ASCII string (UTF-8 of ASCII is the identity). -/
def bytesOfAscii (s : String) : List Nat := s.data.map Char.toNat

/-- `GetFuzzyHash` from `util.go`, with the external ssdeep capability
(`ssdeep.FuzzyBytes`, an excluded external collaborator) abstracted as a
function argument. On failure the cause is wrapped by
`errors.Wrap(err, "fail to calc fuzzy hash")`, whose message is the wrap
text, a colon and space, then the cause. The other operations of the module
(`GetEntropy`, the digests, the validators) have non-fallible types in this
embedding, mirroring their error-free Go signatures. -/
def GetFuzzyHash (fuzzyBytes : List Nat -> Except String String) (data : List Nat) :
    Except String String :=
  match fuzzyBytes data with
  | Except.error err => Except.error ("fail to calc fuzzy hash: " ++ err)
  | Except.ok ssdp => Except.ok ssdp

set_option maxRecDepth 100000

/-- The 256 histogram counts sum to the buffer length. -/
lemma sum_count_eq_length (data : List (Fin 256)) :
    ∑ b : Fin 256, data.count b = data.length := by
  induction data with
  | nil => simp
  | cons a t ih =>
    have h : ∀ b : Fin 256, (a :: t).count b = t.count b + if b = a then 1 else 0 := by
      intro b
      by_cases hba : b = a
      · subst hba; simp [List.count_cons]
      · simp [List.count_cons, hba, Ne.symm hba]
    calc ∑ b : Fin 256, (a :: t).count b
        = ∑ b : Fin 256, (t.count b + if b = a then 1 else 0) := by
          exact Finset.sum_congr rfl fun b _ => h b
      _ = (∑ b : Fin 256, t.count b) + ∑ b : Fin 256, (if b = a then 1 else 0) := by
          rw [Finset.sum_add_distrib]
      _ = t.length + 1 := by rw [ih, Finset.sum_ite_eq' Finset.univ a (fun _ => 1)]; simp
      _ = (a :: t).length := by simp

/-- **C4.** `GetEntropy` of the empty buffer is exactly 0, and for every
`n > 0` and every byte `c`, `GetEntropy` of `n` copies of `c` is exactly 0. -/
theorem GetEntropy_empty_and_replicate :
    GetEntropy [] = 0 ∧
    ∀ (c : Fin 256) (n : ℕ), 0 < n → GetEntropy (List.replicate n c) = 0 := by
  constructor
  · simp [GetEntropy]
  · intro c n hn
    unfold GetEntropy
    rw [if_neg (by simp; omega)]
    apply Finset.sum_eq_zero
    intro b _
    by_cases hbc : b = c
    · subst hbc
      have hcount : (List.replicate n b).count b = n := by simp
      have hlen : (List.replicate n b).length = n := by simp
      rw [hcount, hlen, if_pos hn]
      have hne : (n : ℝ) ≠ 0 := by exact_mod_cast hn.ne'
      rw [div_self hne]
      simp
    · have hmem : b ∉ List.replicate n c := by simp [List.mem_replicate, hbc]
      rw [List.count_eq_zero_of_not_mem hmem]
      simp

/-- **C4 witness.** The replicate part of `GetEntropy_empty_and_replicate`
applied at the concrete buffer of three `0x41` bytes. -/
theorem GetEntropy_empty_and_replicate_witness :
    GetEntropy (List.replicate 3 (⟨0x41, by decide⟩ : Fin 256)) = 0 :=
  GetEntropy_empty_and_replicate.2 ⟨0x41, by decide⟩ 3 (by decide)

/-- **C5.** Any buffer of length 256 in which every byte value occurs exactly
once has entropy exactly 8 (each probability is exactly 1/256). -/
theorem GetEntropy_uniform256 (data : List (Fin 256))
    (hlen : data.length = 256) (hcount : ∀ b : Fin 256, data.count b = 1) :
    GetEntropy data = 8 := by
  unfold GetEntropy
  rw [if_neg (by omega)]
  have hterm : ∀ b : Fin 256,
      (if 0 < data.count b then
        -((data.count b : ℝ) / (data.length : ℝ)) *
          Real.logb 2 ((data.count b : ℝ) / (data.length : ℝ))
      else 0) = 8 / 256 := by
    intro b
    rw [hcount b, hlen, if_pos (by norm_num)]
    have h1 : ((1 : ℕ) : ℝ) / ((256 : ℕ) : ℝ) = ((256 : ℝ))⁻¹ := by norm_num
    rw [h1]
    rw [Real.logb_inv]
    have h256 : (256 : ℝ) = 2 ^ (8 : ℕ) := by norm_num
    rw [h256, Real.logb_pow, Real.logb_self_eq_one (by norm_num)]
    norm_num
  rw [Finset.sum_congr rfl fun b _ => hterm b]
  rw [Finset.sum_const, Finset.card_univ, Fintype.card_fin, nsmul_eq_mul]
  norm_num

/-- Gibbs bound for a single histogram bucket: with `p = c/L`, the entropy
contribution `-p·log2 p` (0 when the count is zero) is at most
`(p·ln 256 + 1/256 - p) / ln 2`. -/
lemma entropy_term_le (c L : ℕ) (hL : 0 < L) (hcL : c ≤ L) :
    (if 0 < c then -((c : ℝ) / (L : ℝ)) * Real.logb 2 ((c : ℝ) / (L : ℝ)) else 0)
      ≤ ((c : ℝ) / (L : ℝ) * Real.log 256 + 1 / 256 - (c : ℝ) / (L : ℝ)) / Real.log 2 := by
  have hlog2 : 0 < Real.log 2 := Real.log_pos (by norm_num)
  by_cases hc : 0 < c
  · rw [if_pos hc]
    set p : ℝ := (c : ℝ) / (L : ℝ) with hp_def
    have hp_pos : 0 < p := by
      apply div_pos
      · exact_mod_cast hc
      · exact_mod_cast hL
    have hkey : -p * Real.log p ≤ p * Real.log 256 + 1 / 256 - p := by
      have hsplit : Real.log (256 * p) = Real.log 256 + Real.log p :=
        Real.log_mul (by norm_num) hp_pos.ne'
      have hlog_le : Real.log ((256 * p)⁻¹) ≤ (256 * p)⁻¹ - 1 :=
        Real.log_le_sub_one_of_pos (by positivity)
      have hinv : Real.log ((256 * p)⁻¹) = -Real.log (256 * p) := Real.log_inv _
      have hmul : p * Real.log ((256 * p)⁻¹) ≤ p * ((256 * p)⁻¹ - 1) :=
        mul_le_mul_of_nonneg_left hlog_le hp_pos.le
      have hpinv : p * (256 * p)⁻¹ = 1 / 256 := by
        field_simp
        ring
      nlinarith [hmul, hinv, hsplit, hpinv]
    have hlogb : Real.logb 2 p = Real.log p / Real.log 2 := rfl
    rw [hlogb]
    calc -p * (Real.log p / Real.log 2)
        = (-p * Real.log p) / Real.log 2 := by ring
      _ ≤ (p * Real.log 256 + 1 / 256 - p) / Real.log 2 :=
          (div_le_div_iff_of_pos_right hlog2).mpr hkey
  · rw [if_neg hc]
    have hc0 : c = 0 := by omega
    subst hc0
    simp only [Nat.cast_zero, zero_div, zero_mul, zero_add, sub_zero]
    exact div_nonneg (by norm_num) hlog2.le

/-- **C1.** For every byte buffer, `GetEntropy` is at least 0 and at most 8;
it is defined for every buffer including the empty one (totality is intrinsic
to the model: `GetEntropy` is a total function on `List (Fin 256)`). -/
theorem GetEntropy_nonneg_and_le_eight (data : List (Fin 256)) :
    0 ≤ GetEntropy data ∧ GetEntropy data ≤ 8 := by
  unfold GetEntropy
  by_cases hlen : data.length = 0
  · rw [if_pos hlen]
    norm_num
  · rw [if_neg hlen]
    have hL : 0 < data.length := Nat.pos_of_ne_zero hlen
    have hLR : (0 : ℝ) < (data.length : ℝ) := by exact_mod_cast hL
    have hlog2 : 0 < Real.log 2 := Real.log_pos (by norm_num)
    constructor
    · apply Finset.sum_nonneg
      intro b _
      by_cases hc : 0 < data.count b
      · rw [if_pos hc]
        set p : ℝ := ((data.count b : ℝ) / (data.length : ℝ)) with hp_def
        have hp_pos : 0 < p := by
          apply div_pos
          · exact_mod_cast hc
          · exact hLR
        have hp_le : p ≤ 1 := by
          rw [hp_def, div_le_one hLR]
          exact_mod_cast List.count_le_length b data
        have hlogb_nonpos : Real.logb 2 p ≤ 0 :=
          Real.logb_nonpos (by norm_num) hp_pos.le hp_le
        nlinarith [hlogb_nonpos, hp_pos]
      · rw [if_neg hc]
    · have hsum_le : ∀ b : Fin 256,
          (if 0 < data.count b then
            -((data.count b : ℝ) / (data.length : ℝ)) *
              Real.logb 2 ((data.count b : ℝ) / (data.length : ℝ))
          else 0)
            ≤ ((data.count b : ℝ) / (data.length : ℝ) * Real.log 256 + 1 / 256
                - (data.count b : ℝ) / (data.length : ℝ)) / Real.log 2 :=
        fun b => entropy_term_le (data.count b) data.length hL (List.count_le_length b data)
      have hsum_p : ∑ b : Fin 256, ((data.count b : ℝ) / (data.length : ℝ)) = 1 := by
        rw [← Finset.sum_div]
        rw [div_eq_one_iff_eq hLR.ne']
        exact_mod_cast congrArg (Nat.cast : ℕ → ℝ) (sum_count_eq_length data)
      calc ∑ b : Fin 256,
            (if 0 < data.count b then
              -((data.count b : ℝ) / (data.length : ℝ)) *
                Real.logb 2 ((data.count b : ℝ) / (data.length : ℝ))
            else 0)
          ≤ ∑ b : Fin 256,
              ((data.count b : ℝ) / (data.length : ℝ) * Real.log 256 + 1 / 256
                - (data.count b : ℝ) / (data.length : ℝ)) / Real.log 2 :=
            Finset.sum_le_sum fun b _ => hsum_le b
        _ = ((∑ b : Fin 256, (data.count b : ℝ) / (data.length : ℝ)) * Real.log 256
              + 256 * (1 / 256)
              - ∑ b : Fin 256, (data.count b : ℝ) / (data.length : ℝ)) / Real.log 2 := by
            rw [← Finset.sum_div]
            congr 1
            rw [Finset.sum_sub_distrib, Finset.sum_add_distrib, ← Finset.sum_mul,
              Finset.sum_const, Finset.card_univ, Fintype.card_fin, nsmul_eq_mul]
            norm_num
        _ = Real.log 256 / Real.log 2 := by
            rw [hsum_p]
            ring
        _ = 8 := by
            have h256 : (256 : ℝ) = 2 ^ (8 : ℕ) := by norm_num
            rw [h256, Real.log_pow]
            field_simp

/-- **C5 witness.** `GetEntropy_uniform256` applied at the concrete buffer
`List.finRange 256`, which lists each byte value exactly once. -/
theorem GetEntropy_uniform256_witness :
    GetEntropy (List.finRange 256) = 8 :=
  GetEntropy_uniform256 (List.finRange 256) (by simp)
    (fun b => List.count_eq_one_of_mem (List.nodup_finRange 256) (List.mem_finRange b))

lemma toLEBytes_length (n x : Nat) : (toLEBytes n x).length = n := by
  induction n generalizing x with
  | zero => rfl
  | succ n ih => simp [toLEBytes, ih]

lemma toBEBytes_length (n x : Nat) : (toBEBytes n x).length = n := by
  simp [toBEBytes, toLEBytes_length]

lemma hexChars_length (l : List Nat) : (hexChars l).length = 2 * l.length := by
  induction l with
  | nil => rfl
  | cons b rest ih =>
    simp [hexChars, ih]
    ring

/-- Every character produced by `hexDigit` is a lowercase hex digit. -/
lemma hexDigit_mem (n : Nat) : hexDigit n ∈ "0123456789abcdef".data := by
  unfold hexDigit
  rw [List.getD_eq_getElem?_getD]
  rcases h : "0123456789abcdef".data[n]? with _ | a
  · decide
  · simpa using List.getElem?_mem h

lemma hexChars_subset (l : List Nat) (c : Char) (hc : c ∈ hexChars l) :
    c ∈ "0123456789abcdef".data := by
  induction l with
  | nil => simp [hexChars] at hc
  | cons b rest ih =>
    simp only [hexChars, List.mem_cons] at hc
    rcases hc with h | h | h
    · subst h; exact hexDigit_mem _
    · subst h; exact hexDigit_mem _
    · exact ih h

lemma hexEncodeToString_length (bs : List Nat) :
    (hexEncodeToString bs).length = 2 * bs.length := by
  simp [hexEncodeToString, String.length, hexChars_length]

lemma md5Bytes_length (msg : List Nat) : (md5Bytes msg).length = 16 := by
  unfold md5Bytes
  simp [toLEBytes_length]

lemma sha1Bytes_length (msg : List Nat) : (sha1Bytes msg).length = 20 := by
  unfold sha1Bytes
  simp [toBEBytes_length]

lemma sha256Bytes_length (msg : List Nat) : (sha256Bytes msg).length = 32 := by
  unfold sha256Bytes
  simp [toBEBytes_length]

/-- **C6.** The digests of the empty buffer are the well-known constants for
MD5, SHA-1 and SHA-256. -/
theorem empty_digests :
    GetMD5Hash [] = "d41d8cd98f00b204e9800998ecf8427e" ∧
    GetSHA1Hash [] = "da39a3ee5e6b4b0d3255bfef95601890afd80709" ∧
    GetSHA256Hash [] = "e3b0c44298fc1c149afbf4c8996fb92427ae41e4649b934ca495991b7852b855" :=
  ⟨by decide, by decide, by decide⟩

/-- **C7.** For every input buffer, each digest function returns a string of
fixed length (32 / 40 / 64 characters) drawn from the lowercase hexadecimal
alphabet. -/
theorem digest_lengths (data : List Nat) :
    (GetMD5Hash data).length = 32 ∧ (GetSHA1Hash data).length = 40 ∧
    (GetSHA256Hash data).length = 64 ∧
    (∀ c ∈ (GetMD5Hash data).data, c ∈ "0123456789abcdef".data) ∧
    (∀ c ∈ (GetSHA1Hash data).data, c ∈ "0123456789abcdef".data) ∧
    (∀ c ∈ (GetSHA256Hash data).data, c ∈ "0123456789abcdef".data) := by
  refine ⟨?_, ?_, ?_, ?_, ?_, ?_⟩
  · rw [GetMD5Hash, hexEncodeToString_length, md5Bytes_length]
  · rw [GetSHA1Hash, hexEncodeToString_length, sha1Bytes_length]
  · rw [GetSHA256Hash, hexEncodeToString_length, sha256Bytes_length]
  · exact fun c hc => hexChars_subset _ c hc
  · exact fun c hc => hexChars_subset _ c hc
  · exact fun c hc => hexChars_subset _ c hc

/-- **C8.** Digest computation is deterministic: byte-for-byte identical
buffers yield identical digest strings, for each of the three algorithms. -/
theorem digest_deterministic (d1 d2 : List Nat) (h : d1 = d2) :
    GetMD5Hash d1 = GetMD5Hash d2 ∧ GetSHA1Hash d1 = GetSHA1Hash d2 ∧
    GetSHA256Hash d1 = GetSHA256Hash d2 := by
  subst h
  exact ⟨rfl, rfl, rfl⟩

/-- **C8 witness.** `digest_deterministic` applied at two identical concrete
one-byte buffers. -/
theorem digest_deterministic_witness :
    GetMD5Hash [65] = GetMD5Hash [65] ∧ GetSHA1Hash [65] = GetSHA1Hash [65] ∧
    GetSHA256Hash [65] = GetSHA256Hash [65] :=
  digest_deterministic [65] [65] rfl

/-- A byte list decodes to the empty rune sequence exactly when it is empty. -/
lemma utf8Decode_eq_nil_iff (l : List Nat) : utf8Decode l = [] ↔ l = [] := by
  cases l with
  | nil => simp [utf8Decode, utf8DecodeAux]
  | cons b0 rest =>
    simp only [utf8Decode, List.length_cons]
    constructor
    · intro h
      rcases hd : decodeRune (b0 :: rest) with _ | ⟨r, n⟩ <;>
        simp [utf8DecodeAux, hd] at h
    · intro h
      cases h

/-- When decoding met a malformed position, the replacement rune 0xFFFD is
among the decoded runes. -/
lemma utf8DecodeAux_error_mem (fuel : Nat) (l : List Nat)
    (h : (utf8DecodeAux fuel l).2 = true) : 65533 ∈ (utf8DecodeAux fuel l).1 := by
  induction fuel generalizing l with
  | zero => simp [utf8DecodeAux] at h
  | succ fuel ih =>
    cases l with
    | nil => simp [utf8DecodeAux] at h
    | cons b0 rest =>
      rcases hd : decodeRune (b0 :: rest) with _ | ⟨r, n⟩
      · simp [utf8DecodeAux, hd]
      · simp only [utf8DecodeAux, hd] at h ⊢
        exact List.mem_cons_of_mem _ (ih _ h)

/-- A successful `decodeRune` step is either a one-byte ASCII rune or a
multi-byte sequence all of whose consumed bytes are at least 0x80. -/
lemma decodeRune_some (b0 : Nat) (rest : List Nat) (r n : Nat)
    (h : decodeRune (b0 :: rest) = some (r, n)) :
    (r = b0 ∧ n = 1 ∧ b0 < 128) ∨
    (2 <= n ∧ ∀ x ∈ (b0 :: rest).take n, 128 <= x) := by
  by_cases h1 : b0 < 128
  · left
    simp only [decodeRune] at h
    rw [if_pos h1] at h
    simp at h
    exact ⟨h.1.symm, h.2.symm, h1⟩
  · right
    by_cases h2 : b0 < 194 ∨ 244 < b0
    · simp only [decodeRune] at h
      rw [if_neg h1, if_pos h2] at h
      cases h
    · by_cases h3 : b0 <= 223
      · simp only [decodeRune] at h
        rw [if_neg h1, if_neg h2, if_pos h3] at h
        rcases rest with _ | ⟨b1, rest2⟩
        · simp [decodeRune2] at h
        · simp only [decodeRune2] at h
          by_cases hc : isCont b1 = true
          · rw [if_pos hc] at h
            simp at h
            obtain ⟨hr, hn⟩ := h
            have hn2 : n = 2 := by omega
            subst hn2
            refine ⟨by omega, ?_⟩
            intro x hx
            simp [List.take] at hx
            have hb1 : 128 <= b1 := by
              unfold isCont at hc
              simp at hc
              omega
            rcases hx with hx | hx <;> omega
          · rw [if_neg hc] at h
            cases h
      · by_cases h4 : b0 <= 239
        · simp only [decodeRune] at h
          rw [if_neg h1, if_neg h2, if_neg h3, if_pos h4] at h
          rcases rest with _ | ⟨b1, _ | ⟨b2, rest3⟩⟩
          · simp [decodeRune3] at h
          · simp [decodeRune3] at h
          · simp only [decodeRune3] at h
            by_cases hc : (if b0 = 224 then 160 else 128) <= b1 ∧
                b1 <= (if b0 = 237 then 159 else 191) ∧ isCont b2 = true
            · rw [if_pos hc] at h
              simp at h
              obtain ⟨hr, hn⟩ := h
              have hn3 : n = 3 := by omega
              subst hn3
              refine ⟨by omega, ?_⟩
              intro x hx
              simp [List.take] at hx
              obtain ⟨hlo, hhi, hc2⟩ := hc
              have hb1 : 128 <= b1 := by
                by_cases he : b0 = 224 <;> simp [he] at hlo <;> omega
              have hb2 : 128 <= b2 := by
                unfold isCont at hc2
                simp at hc2
                omega
              rcases hx with hx | hx | hx <;> omega
            · rw [if_neg hc] at h
              cases h
        · simp only [decodeRune] at h
          rw [if_neg h1, if_neg h2, if_neg h3, if_neg h4] at h
          rcases rest with _ | ⟨b1, _ | ⟨b2, _ | ⟨b3, rest4⟩⟩⟩
          · simp [decodeRune4] at h
          · simp [decodeRune4] at h
          · simp [decodeRune4] at h
          · simp only [decodeRune4] at h
            by_cases hc : (if b0 = 240 then 144 else 128) <= b1 ∧
                b1 <= (if b0 = 244 then 143 else 191) ∧ isCont b2 = true ∧ isCont b3 = true
            · rw [if_pos hc] at h
              simp at h
              obtain ⟨hr, hn⟩ := h
              have hn4 : n = 4 := by omega
              subst hn4
              refine ⟨by omega, ?_⟩
              intro x hx
              simp [List.take] at hx
              obtain ⟨hlo, hhi, hc2, hc3⟩ := hc
              have hb1 : 128 <= b1 := by
                by_cases he : b0 = 240 <;> simp [he] at hlo <;> omega
              have hb2 : 128 <= b2 := by
                unfold isCont at hc2
                simp at hc2
                omega
              have hb3 : 128 <= b3 := by
                unfold isCont at hc3
                simp at hc3
                omega
              rcases hx with hx | hx | hx | hx <;> omega
            · rw [if_neg hc] at h
              cases h

/-- An ASCII byte of the token always appears as its own rune in the decoded
sequence: it can never be consumed inside a multi-byte sequence, whose
consumed bytes are all at least 0x80. -/
lemma ascii_mem_utf8DecodeAux (fuel : Nat) (l : List Nat) (b : Nat)
    (hb : b < 128) (hmem : b ∈ l) (hfuel : l.length <= fuel) :
    b ∈ (utf8DecodeAux fuel l).1 := by
  induction fuel generalizing l with
  | zero =>
    cases l with
    | nil => simp at hmem
    | cons x xs => simp at hfuel
  | succ fuel ih =>
    cases l with
    | nil => simp at hmem
    | cons b0 rest =>
      rcases hd : decodeRune (b0 :: rest) with _ | ⟨r, n⟩
      · have hb0 : ¬b0 < 128 := by
          intro hlt
          simp only [decodeRune] at hd
          rw [if_pos hlt] at hd
          cases hd
        have hbr : b ∈ rest := by
          rcases List.mem_cons.mp hmem with h | h
          · omega
          · exact h
        simp only [utf8DecodeAux, hd]
        apply List.mem_cons_of_mem
        apply ih rest hbr
        simp at hfuel
        omega
      · rcases decodeRune_some b0 rest r n hd with ⟨hr, hn, hlt⟩ | ⟨hn2, hall⟩
        · subst hr
          subst hn
          simp only [utf8DecodeAux, hd]
          rcases List.mem_cons.mp hmem with h | h
          · subst h
            exact List.mem_cons_self _ _
          · apply List.mem_cons_of_mem
            apply ih _ (by simpa using h)
            simp at hfuel ⊢
            omega
        · have hbtake : b ∉ (b0 :: rest).take n := by
            intro hc
            have := hall b hc
            omega
          have hbdrop : b ∈ (b0 :: rest).drop n := by
            have hsplit := List.take_append_drop n (b0 :: rest)
            rw [← hsplit] at hmem
            rcases List.mem_append.mp hmem with h | h
            · exact absurd h hbtake
            · exact h
          simp only [utf8DecodeAux, hd]
          apply List.mem_cons_of_mem
          apply ih _ hbdrop
          simp at hfuel ⊢
          omega

/-- An ASCII byte of the token appears among its decoded runes. -/
lemma ascii_mem_utf8Decode (l : List Nat) (b : Nat) (hb : b < 128) (hmem : b ∈ l) :
    b ∈ utf8Decode l :=
  ascii_mem_utf8DecodeAux l.length l b hb hmem le_rfl

/-- A token among whose runes is one outside the class is rejected by the
anchored-class match. -/
lemma all_eq_false_of_mem (rs : List Nat) (p : Nat -> Bool) (r : Nat)
    (hr : r ∈ rs) (hp : p r = false) : rs.all p = false := by
  rw [List.all_eq_false]
  exact ⟨r, hr, by simp [hp]⟩

/-- The class test of `validFuncName`, read as a disjunction. -/
lemma funcNameChar_iff (r : Nat) : funcNameChar r = true ↔
    isUnicodeLetter r = true ∨ isUnicodeNumber r = true ∨ r ∈ funcNamePunct := by
  simp [funcNameChar, or_assoc]

/-- The class test of `validDosName`, read as a disjunction. -/
lemma dosNameChar_iff (r : Nat) : dosNameChar r = true ↔
    isUnicodeLetter r = true ∨ isUnicodeNumber r = true ∨ r ∈ dosNamePunct := by
  simp [dosNameChar, or_assoc]

/-- **C2.** `isValidFuncName` accepts a token exactly when it is non-empty
and every decoded character is a Unicode letter, a Unicode number, or one of
the six symbol punctuation characters; in particular it accepts
"CreateFileA", rejects the empty token, and rejects "foo bar" (space not in
the class). -/
theorem isValidFuncName_spec :
    (∀ name : List Nat,
      isValidFuncName name = true ↔
        name ≠ [] ∧ ∀ r ∈ utf8Decode name,
          (isUnicodeLetter r = true ∨ isUnicodeNumber r = true ∨ r ∈ funcNamePunct)) ∧
    isValidFuncName (bytesOfAscii "CreateFileA") = true ∧
    isValidFuncName (bytesOfAscii "") = false ∧
    isValidFuncName (bytesOfAscii "foo bar") = false := by
  refine ⟨?_, by decide, by decide, by decide⟩
  intro name
  unfold isValidFuncName
  rw [Bool.and_eq_true, List.all_eq_true]
  constructor
  · rintro ⟨hne, hall⟩
    refine ⟨?_, fun r hr => (funcNameChar_iff r).mp (hall r hr)⟩
    intro hnil
    subst hnil
    simp [utf8Decode, utf8DecodeAux] at hne
  · rintro ⟨hne, hall⟩
    refine ⟨?_, fun r hr => (funcNameChar_iff r).mpr (hall r hr)⟩
    have hne2 : utf8Decode name ≠ [] := fun hnil => hne ((utf8Decode_eq_nil_iff name).mp hnil)
    rcases hu : utf8Decode name with _ | ⟨x, xs⟩
    · exact absurd hu hne2
    · rfl

/-- **C3.** `isValidDosFilename` accepts a token exactly when it is non-empty
and every decoded character is a Unicode letter, a Unicode number, or one of
the DOS-legal punctuation characters; no maximum length is enforced (a name
well beyond the 8.3 bound is accepted); "KERNEL32.DLL" is accepted; and any
token containing a null byte or an ASCII control character is rejected. -/
theorem isValidDosFilename_spec :
    (∀ name : List Nat,
      isValidDosFilename name = true ↔
        name ≠ [] ∧ ∀ r ∈ utf8Decode name,
          (isUnicodeLetter r = true ∨ isUnicodeNumber r = true ∨ r ∈ dosNamePunct)) ∧
    isValidDosFilename (bytesOfAscii "KERNEL32.DLL") = true ∧
    isValidDosFilename (bytesOfAscii "AVERYLONGNAME.TXT") = true ∧
    (∀ (name : List Nat) (b : Nat), b ∈ name → b < 32 ∨ b = 127 →
      isValidDosFilename name = false) := by
  refine ⟨?_, by decide, by decide, ?_⟩
  · intro name
    unfold isValidDosFilename
    rw [Bool.and_eq_true, List.all_eq_true]
    constructor
    · rintro ⟨hne, hall⟩
      refine ⟨?_, fun r hr => (dosNameChar_iff r).mp (hall r hr)⟩
      intro hnil
      subst hnil
      simp [utf8Decode, utf8DecodeAux] at hne
    · rintro ⟨hne, hall⟩
      refine ⟨?_, fun r hr => (dosNameChar_iff r).mpr (hall r hr)⟩
      have hne2 : utf8Decode name ≠ [] := fun hnil => hne ((utf8Decode_eq_nil_iff name).mp hnil)
      rcases hu : utf8Decode name with _ | ⟨x, xs⟩
      · exact absurd hu hne2
      · rfl
  · intro name b hmem hctrl
    have hball : ∀ c : Nat, c < 32 → dosNameChar c = false := by decide
    have hb128 : b < 128 := by omega
    have hbad : dosNameChar b = false := by
      rcases hctrl with h | h
      · exact hball b h
      · subst h
        decide
    have hr : b ∈ utf8Decode name := ascii_mem_utf8Decode name b hb128 hmem
    unfold isValidDosFilename
    rw [all_eq_false_of_mem _ _ b hr hbad]
    simp

/-- **C3 witness.** The control-character part of `isValidDosFilename_spec`
applied at the concrete one-byte token holding a null byte. -/
theorem isValidDosFilename_spec_witness : isValidDosFilename [0] = false :=
  isValidDosFilename_spec.2.2.2 [0] 0 (by decide) (Or.inl (by decide))

/-- **C10.** A token that is not well-formed UTF-8 is rejected by both
validators: the malformed position decodes to the replacement character
U+FFFD, which is in neither allowed class. -/
theorem validators_reject_invalid_utf8 (name : List Nat)
    (h : utf8WellFormed name = false) :
    isValidFuncName name = false ∧ isValidDosFilename name = false := by
  have herr : (utf8DecodeAux name.length name).2 = true := by
    unfold utf8WellFormed at h
    simpa using h
  have hmem : 65533 ∈ utf8Decode name := utf8DecodeAux_error_mem name.length name herr
  constructor
  · unfold isValidFuncName
    rw [all_eq_false_of_mem _ _ 65533 hmem (by decide)]
    simp
  · unfold isValidDosFilename
    rw [all_eq_false_of_mem _ _ 65533 hmem (by decide)]
    simp

/-- **C10 witness.** `validators_reject_invalid_utf8` applied at the concrete
one-byte token holding the invalid UTF-8 byte 0xFF. -/
theorem validators_reject_invalid_utf8_witness :
    isValidFuncName [255] = false ∧ isValidDosFilename [255] = false :=
  validators_reject_invalid_utf8 [255] (by decide)

/-- **C9.** `GetFuzzyHash` fails exactly when the underlying capability
fails; on failure the returned error wraps (does not discard) the underlying
cause; on success the fingerprint is passed through unchanged. The other
operations of the module are non-fallible by type in this embedding. -/
theorem GetFuzzyHash_spec :
    (∀ (f : List Nat -> Except String String) (data : List Nat),
      (∃ e, GetFuzzyHash f data = Except.error e) ↔ (∃ e, f data = Except.error e)) ∧
    (∀ (f : List Nat -> Except String String) (data : List Nat) (e : String),
      f data = Except.error e →
        GetFuzzyHash f data = Except.error ("fail to calc fuzzy hash: " ++ e)) ∧
    (∀ (f : List Nat -> Except String String) (data : List Nat) (s : String),
      f data = Except.ok s → GetFuzzyHash f data = Except.ok s) := by
  refine ⟨?_, ?_, ?_⟩
  · intro f data
    constructor
    · rintro ⟨e, he⟩
      rcases hf : f data with err | s
      · exact ⟨err, rfl⟩
      · unfold GetFuzzyHash at he
        rw [hf] at he
        cases he
    · rintro ⟨e, he⟩
      refine ⟨"fail to calc fuzzy hash: " ++ e, ?_⟩
      unfold GetFuzzyHash
      rw [he]
  · intro f data e he
    unfold GetFuzzyHash
    rw [he]
  · intro f data s hs
    unfold GetFuzzyHash
    rw [hs]

/-- **C9 witness.** The wrapping part of `GetFuzzyHash_spec` applied at a
concrete failing capability, showing the cause preserved inside the wrapped
message. -/
theorem GetFuzzyHash_spec_witness :
    GetFuzzyHash (fun _ => Except.error "cause") [] =
      Except.error ("fail to calc fuzzy hash: " ++ "cause") :=
  GetFuzzyHash_spec.2.1 (fun _ => Except.error "cause") [] "cause" rfl

/-- **C1 witness.** `GetEntropy_nonneg_and_le_eight` applied at a concrete
two-byte buffer. -/
theorem GetEntropy_nonneg_and_le_eight_witness :
    0 ≤ GetEntropy [(0 : Fin 256), 1] ∧ GetEntropy [(0 : Fin 256), 1] ≤ 8 :=
  GetEntropy_nonneg_and_le_eight [(0 : Fin 256), 1]

/-- **C2 witness.** The general part of `isValidFuncName_spec` applied at the
concrete token "CreateFileA", discharging the membership side concretely. -/
theorem isValidFuncName_spec_witness :
    isValidFuncName (bytesOfAscii "CreateFileA") = true :=
  (isValidFuncName_spec.1 (bytesOfAscii "CreateFileA")).mpr (by decide)

/-- **C7 witness.** `digest_lengths` applied at the concrete one-byte
buffer holding 0x41. -/
theorem digest_lengths_witness :
    (GetMD5Hash [65]).length = 32 ∧ (GetSHA1Hash [65]).length = 40 ∧
    (GetSHA256Hash [65]).length = 64 :=
  let h := digest_lengths [65]
  ⟨h.1, h.2.1, h.2.2.1⟩

end Pefile
